import Mathlib

/-!
Verification of the OTP / authentication / appointment core of the
om-engineers appointment-scheduling backend.

The Python data layer is shallowly embedded: each database table is a
`List` of row structures, queried in insertion order (`query...first()`
is `List.find?`, an in-place ORM update of the found row is
`replaceFirst`).  Wall-clock time (`datetime.utcnow()`) is an explicit
`Nat` parameter threaded through every operation; random generators
(`random.choices`, `secrets.token_urlsafe`) are modelled as oracle
arguments supplying the generated value.  Fields of a row that no
embedded operation reads or writes are omitted.
-/

namespace OmEng

/-- Replace the first element satisfying `p` by its image under `f`,
leaving everything else unchanged: the effect of mutating the object
returned by `query.filter_by(...).first()` and committing. -/
def replaceFirst {α : Type} (p : α → Bool) (f : α → α) : List α → List α
  | [] => []
  | r :: rs => if p r then f r :: rs else r :: replaceFirst p f rs

/-! ### OTP model — src/models/otp.py -/

/-- A row of the `otps` table (src/models/otp.py lines 7-24).
Timestamps are in minutes. -/
structure OTPRow where
  phone_number : String
  otp_code : String
  created_at : Nat
  expires_at : Nat
  is_verified : Bool
  attempts : Nat
deriving DecidableEq

/-- Embeds `OTP.create_new_otp` (src/models/otp.py lines 31-41): deletes every
row for the phone number, then inserts a fresh unverified row whose
expiry is `now + expiry_minutes`.  `code` is the value produced by
`generate_otp` (an oracle argument for `random.choices`).  Returns the
new table together with the new row. -/
def create_new_otp (otps : List OTPRow) (phone code : String) (now expiry_minutes : Nat) :
    List OTPRow × OTPRow :=
  let remaining := otps.filter (fun r => !decide (r.phone_number = phone))
  let otp : OTPRow :=
    { phone_number := phone, otp_code := code, created_at := now,
      expires_at := now + expiry_minutes, is_verified := false, attempts := 0 }
  (remaining ++ [otp], otp)

/-- Embeds `OTP.verify_otp` (src/models/otp.py lines 43-72): finds the first
unverified row for the phone; fails with a not-found / expired /
too-many-attempts / invalid-code message exactly as the source does,
incrementing `attempts` before the cap check and the code comparison.
Returns the table after the call together with `(ok, message)`. -/
def verify_otp (otps : List OTPRow) (phone code : String) (now : Nat) :
    List OTPRow × Bool × String :=
  match otps with
  | [] => ([], false, "OTP not found or already verified")
  | r :: rs =>
    if r.phone_number = phone ∧ r.is_verified = false then
      if r.expires_at < now then
        (r :: rs, false, "OTP has expired")
      else
        let r1 : OTPRow := { r with attempts := r.attempts + 1 }
        if 5 < r1.attempts then
          (r1 :: rs, false, "Too many invalid attempts")
        else if r.otp_code = code then
          ({ r1 with is_verified := true } :: rs, true, "OTP verified successfully")
        else
          (r1 :: rs, false, "Invalid OTP code")
    else
      let rest := verify_otp rs phone code now
      (r :: rest.1, rest.2)

/-- Rows that are not the first unverified row for the phone are walked
over unchanged by `verify_otp`. -/
theorem verify_otp_append (l₁ l₂ : List OTPRow) (phone code : String) (now : Nat)
    (h : ∀ x ∈ l₁, ¬(x.phone_number = phone ∧ x.is_verified = false)) :
    verify_otp (l₁ ++ l₂) phone code now =
      (l₁ ++ (verify_otp l₂ phone code now).1, (verify_otp l₂ phone code now).2) := by
  induction l₁ with
  | nil => simp
  | cons a t ih =>
    have ha := h a (by simp)
    have ht : ∀ x ∈ t, ¬(x.phone_number = phone ∧ x.is_verified = false) := by
      intro x hx
      exact h x (by simp [hx])
    simp only [List.cons_append, verify_otp, ha, if_false]
    rw [show t.append l₂ = t ++ l₂ from rfl, ih ht]

/-- C5: a `verify_otp` call made strictly after the expiry timestamp of the
first unverified OTP row for the phone fails with the expiry-specific
message, no matter which code is supplied, and leaves the table — in
particular that row's `is_verified = false` flag — unchanged. -/
theorem C5_verify_after_expiry (l₁ l₂ : List OTPRow) (r : OTPRow) (phone code : String)
    (now : Nat)
    (hskip : ∀ x ∈ l₁, ¬(x.phone_number = phone ∧ x.is_verified = false))
    (hphone : r.phone_number = phone) (hunv : r.is_verified = false)
    (hexp : r.expires_at < now) :
    verify_otp (l₁ ++ r :: l₂) phone code now = (l₁ ++ r :: l₂, false, "OTP has expired") := by
  rw [verify_otp_append l₁ (r :: l₂) phone code now hskip]
  simp [verify_otp, hphone, hunv, hexp]

/-- Witness for C5 at a concrete expired OTP row with the correct code. -/
theorem C5_witness :
    verify_otp [⟨"9876543210", "111111", 0, 10, false, 0⟩] "9876543210" "111111" 11 =
      ([⟨"9876543210", "111111", 0, 10, false, 0⟩], false, "OTP has expired") := by
  have h := C5_verify_after_expiry [] [] ⟨"9876543210", "111111", 0, 10, false, 0⟩
      "9876543210" "111111" 11 (by simp) rfl rfl (by decide)
  simpa using h

/-- C4: when the first unverified OTP row for the phone is unexpired and
already has 5 recorded attempts, a further `verify_otp` call fails with the
attempts-exceeded message — even when the supplied code equals the stored
code — and the row, whose attempt counter is bumped to 6, is not marked
verified. -/
theorem C4_attempts_cap (l₁ l₂ : List OTPRow) (r : OTPRow) (phone code : String) (now : Nat)
    (hskip : ∀ x ∈ l₁, ¬(x.phone_number = phone ∧ x.is_verified = false))
    (hphone : r.phone_number = phone) (hunv : r.is_verified = false)
    (hatt : r.attempts = 5) (hexp : ¬ r.expires_at < now) :
    verify_otp (l₁ ++ r :: l₂) phone code now =
      (l₁ ++ { r with attempts := 6 } :: l₂, false, "Too many invalid attempts") ∧
    ({ r with attempts := 6 } : OTPRow).is_verified = false := by
  refine ⟨?_, by simpa using hunv⟩
  rw [verify_otp_append l₁ (r :: l₂) phone code now hskip]
  simp [verify_otp, hphone, hunv, hexp, hatt]

/-- Witness for C4: a 6th attempt with the correct code still fails. -/
theorem C4_witness :
    verify_otp [⟨"9876543210", "111111", 0, 10, false, 5⟩] "9876543210" "111111" 3 =
      ([⟨"9876543210", "111111", 0, 10, false, 6⟩], false, "Too many invalid attempts") := by
  have h := C4_attempts_cap [] [] ⟨"9876543210", "111111", 0, 10, false, 5⟩
      "9876543210" "111111" 3 (by simp) rfl rfl rfl (by decide)
  exact h.1.trans (by decide)

/-- Concrete live unverified OTP used for the C3 counterexample. -/
def otpC3 : OTPRow :=
  { phone_number := "9876543210", otp_code := "111111", created_at := 0,
    expires_at := 10, is_verified := false, attempts := 0 }

/-- C3 counterexample: after issuing a second OTP (code 222222) for a phone
that held a live unverified OTP (code 111111), verifying the old code fails
with the invalid-code message, not with the not-found outcome the claim
requires: the lookup finds the freshly issued unverified row. -/
theorem C3_counterexample :
    (verify_otp (create_new_otp [otpC3] "9876543210" "222222" 0 10).1
        "9876543210" "111111" 0).2.2 = "Invalid OTP code" ∧
    (verify_otp (create_new_otp [otpC3] "9876543210" "222222" 0 10).1
        "9876543210" "111111" 0).2.2 ≠ "OTP not found or already verified" := by
  constructor <;> decide

/-- C3 (amended): issuing a new OTP deletes every previous OTP row for that
phone — the new row is the only row left for it — and a subsequent
`verify_otp` call with the old code (differing from the new code, made
before the new OTP expires) fails, with the invalid-code message rather
than the not-found outcome, since the lookup finds the fresh row. -/
theorem C3_new_otp_invalidates_old (otps : List OTPRow) (phone oldCode newCode : String)
    (now em tv : Nat) (hcode : newCode ≠ oldCode) (htv : ¬ now + em < tv) :
    ((create_new_otp otps phone newCode now em).1.filter
        (fun r => decide (r.phone_number = phone)) =
      [(create_new_otp otps phone newCode now em).2]) ∧
    verify_otp (create_new_otp otps phone newCode now em).1 phone oldCode tv =
      (otps.filter (fun r => !decide (r.phone_number = phone)) ++
        [{ (create_new_otp otps phone newCode now em).2 with attempts := 1 }],
       false, "Invalid OTP code") := by
  constructor
  · simp [create_new_otp, List.filter_append, List.filter_filter]
  · have hskip : ∀ x ∈ otps.filter (fun r => !decide (r.phone_number = phone)),
        ¬(x.phone_number = phone ∧ x.is_verified = false) := by
      intro x hx
      have := List.of_mem_filter hx
      simp only [Bool.not_eq_true', decide_eq_false_iff_not] at this
      exact fun hc => this hc.1
    show verify_otp (otps.filter (fun r => !decide (r.phone_number = phone)) ++ [_]) _ _ _ = _
    rw [verify_otp_append _ _ _ _ _ hskip]
    simp [verify_otp, create_new_otp, htv, hcode]

/-- Witness for the amended C3 at the concrete state of the counterexample. -/
theorem C3_witness :
    verify_otp (create_new_otp [otpC3] "9876543210" "222222" 0 10).1 "9876543210" "111111" 0 =
      ([⟨"9876543210", "222222", 0, 10, false, 1⟩], false, "Invalid OTP code") := by
  have h := C3_new_otp_invalidates_old [otpC3] "9876543210" "111111" "222222" 0 10 0
      (by decide) (by decide)
  exact h.2.trans (by decide)

/-! ### Generic table lemmas shared by the customer and auth embeddings -/

/-- A successful `find?` splits the table into a prefix with no match,
the found row, and a suffix. -/
theorem find?_some_decomp {α : Type} (p : α → Bool) :
    ∀ (l : List α) (c : α), l.find? p = some c →
      ∃ l₁ l₂, l = l₁ ++ c :: l₂ ∧ (∀ x ∈ l₁, p x = false) := by
  intro l
  induction l with
  | nil => intro c h; simp at h
  | cons a t ih =>
    intro c h
    by_cases hpa : p a
    · rw [List.find?_cons_of_pos _ hpa] at h
      obtain rfl : a = c := by injection h
      exact ⟨[], t, by simp, by simp⟩
    · rw [List.find?_cons_of_neg _ hpa] at h
      obtain ⟨l₁, l₂, rfl, hl⟩ := ih c h
      refine ⟨a :: l₁, l₂, by simp, ?_⟩
      intro x hx
      rcases List.mem_cons.1 hx with rfl | hx
      · simpa using hpa
      · exact hl x hx

/-- Running `find?` over a prefix without matches finds the first matching row. -/
theorem find?_append_first {α : Type} (p : α → Bool) (l₁ l₂ : List α) (c : α)
    (h₁ : ∀ x ∈ l₁, p x = false) (hc : p c = true) :
    (l₁ ++ c :: l₂).find? p = some c := by
  induction l₁ with
  | nil => simpa using List.find?_cons_of_pos l₂ hc
  | cons a t ih =>
    have ha := h₁ a (by simp)
    have ht : ∀ x ∈ t, p x = false := fun x hx => h₁ x (by simp [hx])
    rw [List.cons_append, List.find?_cons_of_neg _ (by simp [ha])]
    exact ih ht

/-- Running `replaceFirst` over a prefix without matches rewrites the first
matching row and nothing else. -/
theorem replaceFirst_append_first {α : Type} (p : α → Bool) (f : α → α) (l₁ l₂ : List α) (c : α)
    (h₁ : ∀ x ∈ l₁, p x = false) (hc : p c = true) :
    replaceFirst p f (l₁ ++ c :: l₂) = l₁ ++ f c :: l₂ := by
  induction l₁ with
  | nil => simp [replaceFirst, hc]
  | cons a t ih =>
    have ha := h₁ a (by simp)
    have ht : ∀ x ∈ t, p x = false := fun x hx => h₁ x (by simp [hx])
    simp [replaceFirst, ha, ih ht]

/-! ### Customer model — src/models/customer_db.py -/

/-- A row of the `customers` table (src/models/customer_db.py lines 7-16). -/
structure CustomerRow where
  id : Nat
  name : String
  email : String
  phone : String
  address : String
  created_at : Nat
  updated_at : Nat
deriving DecidableEq

/-- The `customers` table with its auto-increment id counter. -/
structure CustomerTable where
  rows : List CustomerRow
  next_id : Nat
deriving DecidableEq

/-- Keep only the digits of a string, as the join-filter-isdigit idiom of
the source does. -/
def cleanDigits (s : String) : String := ⟨s.data.filter (fun c => c.isDigit)⟩

/-- Embeds `Customer.get_by_email` (src/models/customer_db.py lines 33-36):
first row whose email matches exactly. -/
def get_by_email (rows : List CustomerRow) (email : String) : Option CustomerRow :=
  rows.find? (fun c => decide (c.email = email))

/-- Embeds `Customer.get_by_phone` (src/models/customer_db.py lines 38-48): walks
the whole table comparing digit-cleaned phone numbers, first match wins. -/
def get_by_phone (rows : List CustomerRow) (phone : String) : Option CustomerRow :=
  rows.find? (fun c => decide (cleanDigits c.phone = cleanDigits phone))

/-- The in-place field updates `get_or_create` performs on an existing row
(src/models/customer_db.py lines 72-81), in source order: name, address
(only when the new address is non-empty), email (only when non-empty),
phone, then `updated_at`. -/
def applyUpdates (c : CustomerRow) (name email phone address : String) (now : Nat) :
    CustomerRow :=
  let c1 := if c.name ≠ name then { c with name := name } else c
  let c2 := if c1.address ≠ address ∧ address ≠ "" then { c1 with address := address } else c1
  let c3 := if email ≠ "" ∧ c2.email ≠ email then { c2 with email := email } else c2
  let c4 := if c3.phone ≠ phone then { c3 with phone := phone } else c3
  { c4 with updated_at := now }

/-- Applying `applyUpdates` never changes the row id. -/
theorem applyUpdates_id (c : CustomerRow) (n e p a : String) (t : Nat) :
    (applyUpdates c n e p a t).id = c.id := by
  simp only [applyUpdates]
  repeat' split
  all_goals rfl

/-- After `applyUpdates` the stored name equals the supplied name
(the source's `if existing.name != name` guard is a no-op condition). -/
theorem applyUpdates_name (c : CustomerRow) (n e p a : String) (t : Nat) :
    (applyUpdates c n e p a t).name = n := by
  simp only [applyUpdates]
  repeat' split
  all_goals simp_all [not_not]

/-- After `applyUpdates` the stored phone equals the supplied phone. -/
theorem applyUpdates_phone (c : CustomerRow) (n e p a : String) (t : Nat) :
    (applyUpdates c n e p a t).phone = p := by
  simp only [applyUpdates]
  repeat' split
  all_goals simp_all [not_not]

/-- Embeds `Customer.get_or_create` (src/models/customer_db.py lines 61-98):
looks up by exact email (only when the email argument is non-empty), then
by digit-cleaned phone; updates and returns the found row with
`created = false`, or inserts a fresh row with the next id and
`created = true`.  The commit try/except only re-raises datastore errors,
which the embedding does not model. -/
def get_or_create (s : CustomerTable) (name email phone address : String) (now : Nat) :
    CustomerTable × CustomerRow × Bool :=
  match (if email ≠ "" then get_by_email s.rows email else none) with
  | some c =>
    let rows2 := replaceFirst (fun x => decide (x.email = email))
      (fun x => applyUpdates x name email phone address now) s.rows
    ({ s with rows := rows2 }, applyUpdates c name email phone address now, false)
  | none =>
    match get_by_phone s.rows phone with
    | some c =>
      let rows2 := replaceFirst (fun x => decide (cleanDigits x.phone = cleanDigits phone))
        (fun x => applyUpdates x name email phone address now) s.rows
      ({ s with rows := rows2 }, applyUpdates c name email phone address now, false)
    | none =>
      let newC : CustomerRow :=
        { id := s.next_id, name := name, email := email, phone := phone,
          address := address, created_at := now, updated_at := now }
      ({ rows := s.rows ++ [newC], next_id := s.next_id + 1 }, newC, true)

/-- With no email, `get_or_create` updates the first row whose
digit-cleaned phone matches, in place, and reports `created = false`. -/
theorem get_or_create_found (s : CustomerTable) (nm addr : String) (t : Nat)
    (phone : String) (l₁ l₂ : List CustomerRow) (w : CustomerRow)
    (hrows : s.rows = l₁ ++ w :: l₂)
    (hl₁ : ∀ x ∈ l₁, decide (cleanDigits x.phone = cleanDigits phone) = false)
    (hw : decide (cleanDigits w.phone = cleanDigits phone) = true) :
    get_or_create s nm "" phone addr t =
      ({ s with rows := l₁ ++ applyUpdates w nm "" phone addr t :: l₂ },
       applyUpdates w nm "" phone addr t, false) := by
  unfold get_or_create get_by_phone
  rw [hrows]
  rw [find?_append_first _ l₁ l₂ w hl₁ hw]
  rw [replaceFirst_append_first _ _ l₁ l₂ w hl₁ hw]
  simp

/-- C9: calling `get_or_create` twice with the same phone, an empty email,
and two different names returns the same customer id from both calls,
reports `created = false` on the second call, and the row returned and
stored by the second call carries the second name. -/
theorem C9_get_or_create_same_phone (s : CustomerTable)
    (phone name1 name2 addr1 addr2 : String) (t1 t2 : Nat) (hnames : name1 ≠ name2) :
    (get_or_create (get_or_create s name1 "" phone addr1 t1).1 name2 "" phone addr2 t2).2.1.id =
      (get_or_create s name1 "" phone addr1 t1).2.1.id ∧
    (get_or_create (get_or_create s name1 "" phone addr1 t1).1 name2 "" phone addr2 t2).2.2 =
      false ∧
    (get_or_create (get_or_create s name1 "" phone addr1 t1).1 name2 "" phone addr2 t2).2.1.name =
      name2 ∧
    (get_or_create (get_or_create s name1 "" phone addr1 t1).1 name2 "" phone addr2 t2).2.1 ∈
      (get_or_create (get_or_create s name1 "" phone addr1 t1).1 name2 "" phone addr2 t2).1.rows := by
  cases hfind : get_by_phone s.rows phone with
  | none =>
    have hfind' : s.rows.find? (fun x => decide (cleanDigits x.phone = cleanDigits phone)) =
        none := hfind
    have hall : ∀ x ∈ s.rows, decide (cleanDigits x.phone = cleanDigits phone) = false := by
      have hnone := List.find?_eq_none.mp hfind'
      intro x hx
      simpa using hnone x hx
    have h1 : get_or_create s name1 "" phone addr1 t1 =
        ({ rows := s.rows ++
             [{ id := s.next_id, name := name1, email := "", phone := phone,
                address := addr1, created_at := t1, updated_at := t1 }],
           next_id := s.next_id + 1 },
         { id := s.next_id, name := name1, email := "", phone := phone,
           address := addr1, created_at := t1, updated_at := t1 }, true) := by
      unfold get_or_create
      rw [hfind]
      simp
    have h2 := get_or_create_found
        ({ rows := s.rows ++
             [{ id := s.next_id, name := name1, email := "", phone := phone,
                address := addr1, created_at := t1, updated_at := t1 }],
           next_id := s.next_id + 1 }) name2 addr2 t2 phone s.rows []
        ({ id := s.next_id, name := name1, email := "", phone := phone,
           address := addr1, created_at := t1, updated_at := t1 }) rfl hall (by simp)
    rw [h1, h2]
    refine ⟨applyUpdates_id _ _ _ _ _ _, rfl, applyUpdates_name _ _ _ _ _ _, ?_⟩
    exact List.mem_append_right _ (List.mem_cons_self _ _)
  | some c =>
    have hfind' : s.rows.find? (fun x => decide (cleanDigits x.phone = cleanDigits phone)) =
        some c := hfind
    obtain ⟨l₁, l₂, hrows, hl₁⟩ := find?_some_decomp _ s.rows c hfind'
    have hc : decide (cleanDigits c.phone = cleanDigits phone) = true := by
      have hpc := List.find?_some hfind'
      simpa using hpc
    have h1 := get_or_create_found s name1 addr1 t1 phone l₁ l₂ c hrows hl₁ hc
    have hw2 : decide (cleanDigits (applyUpdates c name1 "" phone addr1 t1).phone =
        cleanDigits phone) = true := by
      rw [applyUpdates_phone]
      simp
    have h2 := get_or_create_found { s with rows := l₁ ++ applyUpdates c name1 "" phone addr1 t1 :: l₂ } name2 addr2 t2 phone l₁ l₂ (applyUpdates c name1 "" phone addr1 t1) rfl hl₁ hw2
    rw [h1, h2]
    refine ⟨applyUpdates_id _ _ _ _ _ _, rfl, applyUpdates_name _ _ _ _ _ _, ?_⟩
    exact List.mem_append_right _ (List.mem_cons_self _ _)

/-- Witness for C9 on an initially empty table: the second call reports
`created = false` and stores the second name. -/
theorem C9_witness :
    (get_or_create (get_or_create (⟨[], 1⟩ : CustomerTable) "Alice" "" "9876543210" "" 0).1
        "Bob" "" "9876543210" "" 0).2.2 = false ∧
    (get_or_create (get_or_create (⟨[], 1⟩ : CustomerTable) "Alice" "" "9876543210" "" 0).1
        "Bob" "" "9876543210" "" 0).2.1.name = "Bob" := by
  have h := C9_get_or_create_same_phone (⟨[], 1⟩ : CustomerTable) "9876543210"
      "Alice" "Bob" "" "" 0 0 (by decide)
  exact ⟨h.2.1, h.2.2.1⟩

/-! ### CustomerAuth model — src/models/customer_auth.py — and
AuthService — src/services/auth_service.py -/

/-- A row of the `customer_auth` table (src/models/customer_auth.py
lines 10-25).  `auth_token`/`token_expires_at`/`last_login` are nullable.
Timestamps are abstract `Nat` instants. -/
structure CustomerAuthRow where
  customer_id : Nat
  auth_key : String
  auth_token : Option String
  token_expires_at : Option Nat
  is_active : Bool
  last_login : Option Nat
deriving DecidableEq

/-- The slice of the datastore the authentication service touches. -/
structure AuthState where
  customers : List CustomerRow
  auths : List CustomerAuthRow
deriving DecidableEq

/-- Python truthiness of an optional string: `None` and `""` are falsy. -/
def truthyStr : Option String → Bool
  | none => false
  | some s => !decide (s = "")

/-- Embeds `CustomerAuth.is_token_valid` (src/models/customer_auth.py lines
52-56): false when the token or its expiry is missing (an empty-string
token is falsy), otherwise requires `now < token_expires_at` and
`is_active`. -/
def is_token_valid (r : CustomerAuthRow) (now : Nat) : Bool :=
  match r.auth_token, r.token_expires_at with
  | some tok, some exp => if tok = "" then false else (decide (now < exp) && r.is_active)
  | _, _ => false

/-- Embeds `CustomerAuth.create_auth_token` (src/models/customer_auth.py lines
45-50) applied to a row: stores the freshly generated token (`fresh`, the
oracle value of `secrets.token_urlsafe(48)`), sets the expiry
`hours_valid` hours ahead (default 24*30) and records `last_login`. -/
def create_auth_token (r : CustomerAuthRow) (fresh : String) (now hours_valid : Nat) :
    CustomerAuthRow :=
  { r with auth_token := some fresh, token_expires_at := some (now + hours_valid),
           last_login := some now }

/-- Embeds `CustomerAuth.revoke_token` (src/models/customer_auth.py lines 58-61):
clears the token and its expiry and touches nothing else. -/
def revokeRow (r : CustomerAuthRow) : CustomerAuthRow :=
  { r with auth_token := none, token_expires_at := none }

/-- The ORM `auth_record.customer` relationship: the customer row the
foreign key points at. -/
def customerOf (s : AuthState) (r : CustomerAuthRow) : Option CustomerRow :=
  s.customers.find? (fun c => decide (c.id = r.customer_id))

/-- Embeds `CustomerAuth.get_by_auth_token` (src/models/customer_auth.py lines
83-89): first active row holding exactly this token, kept only when
`is_token_valid`. -/
def get_by_auth_token (auths : List CustomerAuthRow) (token : String) (now : Nat) :
    Option CustomerAuthRow :=
  match auths.find? (fun r => decide (r.auth_token = some token) && r.is_active) with
  | some r => if is_token_valid r now then some r else none
  | none => none

/-- Embeds `CustomerAuth.get_by_auth_key` (src/models/customer_auth.py lines
78-81): first active row with exactly this auth key. -/
def get_by_auth_key (auths : List CustomerAuthRow) (key : String) : Option CustomerAuthRow :=
  auths.find? (fun r => decide (r.auth_key = key) && r.is_active)

/-- Embeds `AuthService.validate_token` (src/services/auth_service.py lines
63-80): rejects a falsy token, otherwise returns the customer of the
first active, unexpired row holding the token. -/
def validate_token (s : AuthState) (token : String) (now : Nat) : Option CustomerRow :=
  if token = "" then none
  else
    match get_by_auth_token s.auths token now with
    | some r => customerOf s r
    | none => none

/-- Embeds `AuthService.validate_auth_key` (src/services/auth_service.py lines
82-99): rejects a key that is falsy or not exactly 16 characters,
otherwise returns the customer of the first active row with that key. -/
def validate_auth_key (s : AuthState) (key : String) : Option CustomerRow :=
  if key = "" ∨ key.length ≠ 16 then none
  else
    match get_by_auth_key s.auths key with
    | some r => customerOf s r
    | none => none

/-- Embeds `AuthService.revoke_token` (src/services/auth_service.py lines
115-127): finds the customer's auth row (first by `customer_id`) and, when
present, clears its token and expiry. -/
def revoke_token (s : AuthState) (customer : CustomerRow) : AuthState :=
  let auths2 := replaceFirst (fun r => decide (r.customer_id = customer.id)) revokeRow s.auths
  { s with auths := auths2 }

/-- Embeds `AuthService.authenticate_after_otp` (src/services/auth_service.py
lines 12-61).  Its very first statement calls
`Customer.get_all_by_phone(phone_number)`, but no class in the repository
defines `get_all_by_phone` — src/models/customer_db.py (the module the
service imports `Customer` from) defines only `get_by_phone` — so in
Python the attribute lookup raises `AttributeError` before any other work
happens; the surrounding `except Exception` handler rolls back and
returns `(None, "Authentication error: ...")`.  The embedding therefore
returns the error outcome unconditionally, with the state unchanged. -/
def authenticate_after_otp (s : AuthState) (phone : String) :
    AuthState × Option CustomerRow × String :=
  (s, none,
   "Authentication error: type object 'Customer' has no attribute 'get_all_by_phone'")

/-! ### Request-credential extraction — src/services/auth_service.py
lines 129-183 -/

/-- A request as the extraction code sees it: the three headers it reads
and the `token` / `auth_key` query-string and form parameters.  A missing
header or parameter is `none` (Flask's `.get` returns `None`). -/
structure HttpRequest where
  authorization : Option String
  x_auth_token : Option String
  x_auth_key : Option String
  args_token : Option String
  form_token : Option String
  args_auth_key : Option String
  form_auth_key : Option String
deriving DecidableEq

/-- Python's `a or b` on two optional strings (used for
`request.args.get(..) or request.form.get(..)`). -/
def pyOr (a b : Option String) : Option String :=
  if truthyStr a then a else b

/-- Python's `s.startswith(pre)` on the character-list model of strings. -/
def pyStartsWith (s pre : String) : Bool :=
  pre.data.isPrefixOf s.data

/-- Drop the first `n` characters of a string — the value of
`split(' ', 1)[1]` for a string known to start with the 7-character
prefix `Bearer `. -/
def strDrop (s : String) (n : Nat) : String :=
  ⟨s.data.drop n⟩

/-- The `X-Auth-Key` header fallback inside
`get_customer_from_request_headers` (lines 147-152). -/
def headers_key_step (s : AuthState) (req : HttpRequest) : Option CustomerRow :=
  match req.x_auth_key with
  | some k => if k = "" then none else validate_auth_key s k
  | none => none

/-- The `X-Auth-Token` header step (lines 142-145), falling back to the
`X-Auth-Key` step. -/
def headers_token_step (s : AuthState) (req : HttpRequest) (now : Nat) : Option CustomerRow :=
  match req.x_auth_token with
  | some t => if t = "" then headers_key_step s req else validate_token s t now
  | none => headers_key_step s req

/-- Embeds `AuthService.get_customer_from_request_headers` (src/services/
auth_service.py lines 129-152): an `Authorization` header that is truthy
and starts with `Bearer ` short-circuits — the token after the first
space (`split(' ', 1)[1]`, i.e. everything after the 7-character prefix)
is validated and the other headers are never consulted. -/
def get_customer_from_request_headers (s : AuthState) (req : HttpRequest) (now : Nat) :
    Option CustomerRow :=
  match req.authorization with
  | some h =>
    if h ≠ "" ∧ pyStartsWith h "Bearer " then validate_token s (strDrop h 7) now
    else headers_token_step s req now
  | none => headers_token_step s req now

/-- The `auth_key` parameter step of `get_customer_from_request_params`
(lines 165-170). -/
def params_key_step (s : AuthState) (req : HttpRequest) : Option CustomerRow :=
  match pyOr req.args_auth_key req.form_auth_key with
  | some k => if k = "" then none else validate_auth_key s k
  | none => none

/-- Embeds `AuthService.get_customer_from_request_params` (src/services/
auth_service.py lines 154-170): a truthy `token` parameter
short-circuits; only otherwise is the `auth_key` parameter consulted. -/
def get_customer_from_request_params (s : AuthState) (req : HttpRequest) (now : Nat) :
    Option CustomerRow :=
  match pyOr req.args_token req.form_token with
  | some t => if t = "" then params_key_step s req else validate_token s t now
  | none => params_key_step s req

/-- Embeds `AuthService.get_customer_from_request` (src/services/auth_service.py
lines 172-183): headers first; the parameter stage runs whenever the
header stage produced no customer. -/
def get_customer_from_request (s : AuthState) (req : HttpRequest) (now : Nat) :
    Option CustomerRow :=
  match get_customer_from_request_headers s req now with
  | some c => some c
  | none => get_customer_from_request_params s req now

/-- C1 (documents the code bug): for every state and phone number,
`authenticate_after_otp` returns no customer, leaves the datastore
untouched, and reports the attribute error — the call to the nonexistent
`Customer.get_all_by_phone` makes the exception handler fire on every
invocation, so no token is ever minted and the claimed
issue/validate/revoke round-trip never begins. -/
theorem C1_authenticate_always_errors (s : AuthState) (phone : String) :
    (authenticate_after_otp s phone).2.1 = none ∧
    (authenticate_after_otp s phone).1 = s ∧
    (authenticate_after_otp s phone).2.2 =
      "Authentication error: type object 'Customer' has no attribute 'get_all_by_phone'" :=
  ⟨rfl, rfl, rfl⟩

/-- Unpacking `is_token_valid = true`: the row is active, its token is a
non-empty string, and its expiry lies strictly in the future. -/
theorem is_token_valid_spec (r : CustomerAuthRow) (now : Nat)
    (h : is_token_valid r now = true) :
    r.is_active = true ∧ (∀ tok, r.auth_token = some tok → tok ≠ "") ∧
    ∃ exp, r.token_expires_at = some exp ∧ now < exp := by
  unfold is_token_valid at h
  cases htk : r.auth_token with
  | none => rw [htk] at h; simp at h
  | some t =>
    cases hex : r.token_expires_at with
    | none => rw [htk, hex] at h; simp at h
    | some e =>
      rw [htk, hex] at h
      by_cases ht : t = ""
      · simp [ht] at h
      · simp only [if_neg ht, Bool.and_eq_true, decide_eq_true_eq] at h
        refine ⟨h.2, ?_, e, rfl, h.1⟩
        intro tok htok2
        injection htok2 with hh
        subst hh
        exact ht

/-- C8: for a customer whose auth row — the first row for its customer id,
also the first active row carrying its (16-character) auth key, and the
only row holding the current token — is valid at `now`, `revoke_token`
rewrites exactly that row, clearing only `auth_token` and
`token_expires_at` while preserving `auth_key` and `is_active`; the old
token validates to the customer before the call, fails to validate after
it, and the auth key still validates to the same customer after it. -/
theorem C8_revoke_token_frame (cs : List CustomerRow) (l₁ l₂ : List CustomerAuthRow)
    (r : CustomerAuthRow) (cust : CustomerRow) (tok : String) (now : Nat)
    (hcid : r.customer_id = cust.id)
    (hfirst : ∀ x ∈ l₁, x.customer_id ≠ cust.id)
    (htok : r.auth_token = some tok)
    (hvalid : is_token_valid r now = true)
    (hkeylen : r.auth_key.length = 16)
    (hkeyfirst : ∀ x ∈ l₁, ¬(x.auth_key = r.auth_key ∧ x.is_active = true))
    (htokuniq : ∀ x ∈ l₁ ++ l₂, x.auth_token ≠ some tok)
    (hcust : cs.find? (fun c => decide (c.id = cust.id)) = some cust) :
    (revoke_token ⟨cs, l₁ ++ r :: l₂⟩ cust).auths = l₁ ++ revokeRow r :: l₂ ∧
    (revokeRow r).auth_key = r.auth_key ∧
    (revokeRow r).is_active = r.is_active ∧
    (revokeRow r).auth_token = none ∧
    (revokeRow r).token_expires_at = none ∧
    validate_token ⟨cs, l₁ ++ r :: l₂⟩ tok now = some cust ∧
    validate_token (revoke_token ⟨cs, l₁ ++ r :: l₂⟩ cust) tok now = none ∧
    validate_auth_key (revoke_token ⟨cs, l₁ ++ r :: l₂⟩ cust) r.auth_key = some cust := by
  obtain ⟨hact, htokne, exp, hexp, hlt⟩ := is_token_valid_spec r now hvalid
  have htokne' : tok ≠ "" := htokne tok htok
  have hl₁cid : ∀ x ∈ l₁, (fun y : CustomerAuthRow => decide (y.customer_id = cust.id)) x =
      false := by
    intro x hx
    simpa using hfirst x hx
  have hrcid : decide (r.customer_id = cust.id) = true := by simp [hcid]
  have hauths : (revoke_token ⟨cs, l₁ ++ r :: l₂⟩ cust).auths = l₁ ++ revokeRow r :: l₂ := by
    unfold revoke_token
    exact replaceFirst_append_first _ _ l₁ l₂ r hl₁cid hrcid
  refine ⟨hauths, rfl, rfl, rfl, rfl, ?_, ?_, ?_⟩
  · -- the token validates before revocation
    have hl₁tok : ∀ x ∈ l₁,
        (fun y : CustomerAuthRow => decide (y.auth_token = some tok) && y.is_active) x =
          false := by
      intro x hx
      have := htokuniq x (List.mem_append_left _ hx)
      simp [this]
    have hrtok : (decide (r.auth_token = some tok) && r.is_active) = true := by
      simp [htok, hact]
    have hfound : get_by_auth_token (AuthState.mk cs (l₁ ++ r :: l₂)).auths tok now =
        some r := by
      show get_by_auth_token (l₁ ++ r :: l₂) tok now = some r
      unfold get_by_auth_token
      rw [find?_append_first _ l₁ l₂ r hl₁tok hrtok]
      simp [hvalid]
    unfold validate_token
    rw [if_neg htokne', hfound]
    show customerOf ⟨cs, l₁ ++ r :: l₂⟩ r = some cust
    unfold customerOf
    show cs.find? (fun c => decide (c.id = r.customer_id)) = some cust
    rw [hcid]
    exact hcust
  · -- the token fails to validate after revocation
    have hnone : (l₁ ++ revokeRow r :: l₂).find?
        (fun y => decide (y.auth_token = some tok) && y.is_active) = none := by
      rw [List.find?_eq_none]
      intro x hx
      rcases List.mem_append.mp hx with hx1 | hx2
      · have := htokuniq x (List.mem_append_left _ hx1)
        simp [this]
      · rcases List.mem_cons.mp hx2 with rfl | hx3
        · simp [revokeRow]
        · have := htokuniq x (List.mem_append_right _ hx3)
          simp [this]
    have hfound2 : get_by_auth_token (revoke_token ⟨cs, l₁ ++ r :: l₂⟩ cust).auths tok now =
        none := by
      rw [hauths]
      unfold get_by_auth_token
      rw [hnone]
    unfold validate_token
    rw [if_neg htokne', hfound2]
  · -- the auth key still validates after revocation
    have hne16 : ¬(r.auth_key = "" ∨ r.auth_key.length ≠ 16) := by
      rintro (h0 | h0)
      · rw [h0] at hkeylen
        simp at hkeylen
      · exact h0 hkeylen
    have hl₁key : ∀ x ∈ l₁,
        (fun y : CustomerAuthRow => decide (y.auth_key = r.auth_key) && y.is_active) x =
          false := by
      intro x hx
      have hk := hkeyfirst x hx
      by_cases hxk : x.auth_key = r.auth_key
      · have hxa2 : x.is_active = false := by
          cases hxa : x.is_active
          · rfl
          · exact absurd ⟨hxk, hxa⟩ hk
        simp [hxa2]
      · simp [hxk]
    have hrkey : (decide ((revokeRow r).auth_key = r.auth_key) && (revokeRow r).is_active) =
        true := by
      simp [revokeRow, hact]
    have hfoundk : get_by_auth_key (revoke_token ⟨cs, l₁ ++ r :: l₂⟩ cust).auths r.auth_key =
        some (revokeRow r) := by
      rw [hauths]
      unfold get_by_auth_key
      exact find?_append_first _ l₁ l₂ (revokeRow r) hl₁key hrkey
    unfold validate_auth_key
    rw [if_neg hne16, hfoundk]
    show customerOf (revoke_token ⟨cs, l₁ ++ r :: l₂⟩ cust) (revokeRow r) = some cust
    unfold customerOf
    show cs.find? (fun c => decide (c.id = (revokeRow r).customer_id)) = some cust
    have hrc : (revokeRow r).customer_id = cust.id := hcid
    rw [hrc]
    exact hcust

/-- The concrete customer row used by the auth witnesses. -/
def custW : CustomerRow :=
  { id := 1, name := "Asha", email := "", phone := "9876543210", address := "",
    created_at := 0, updated_at := 0 }

/-- The concrete auth row used by the auth witnesses: active, 16-digit
auth key, valid token `tokA` until instant 100. -/
def rW : CustomerAuthRow :=
  { customer_id := 1, auth_key := "1234567890123456", auth_token := some "tokA",
    token_expires_at := some 100, is_active := true, last_login := none }

/-- Witness for C8 at a one-customer, one-auth-row state. -/
theorem C8_witness :
    validate_token (revoke_token ⟨[custW], [rW]⟩ custW) "tokA" 0 = none ∧
    validate_auth_key (revoke_token ⟨[custW], [rW]⟩ custW) "1234567890123456" = some custW := by
  have h := C8_revoke_token_frame [custW] [] [] rW custW "tokA" 0 rfl (by simp) rfl
      (by decide) (by decide) (by simp) (by simp) (by decide)
  exact ⟨h.2.2.2.2.2.2.1, h.2.2.2.2.2.2.2⟩

/-- No truthy `Authorization: Bearer ...` header is present. -/
def noBearer (req : HttpRequest) : Prop :=
  ∀ h, req.authorization = some h → ¬(h ≠ "" ∧ pyStartsWith h "Bearer " = true)

/-- No truthy `X-Auth-Token` header is present. -/
def noHeaderToken (req : HttpRequest) : Prop :=
  ∀ t, req.x_auth_token = some t → t = ""

/-- No truthy `X-Auth-Key` header is present. -/
def noHeaderKey (req : HttpRequest) : Prop :=
  ∀ k, req.x_auth_key = some k → k = ""

/-- The state used by the C6 and C8 concrete evaluations: one customer
(id 1) whose auth row holds the valid token `tokA`. -/
def sC6 : AuthState := ⟨[custW], [rW]⟩

/-- A request carrying an invalid Bearer credential together with a valid
`X-Auth-Token` header. -/
def reqC6 : HttpRequest :=
  { authorization := some "Bearer wrong", x_auth_token := some "tokA", x_auth_key := none,
    args_token := none, form_token := none, args_auth_key := none, form_auth_key := none }

/-- C6 counterexample: the request carries an invalid `Authorization:
Bearer wrong` header and a valid `X-Auth-Token: tokA` header — the
highest-precedence credential that validates is `X-Auth-Token`, whose
customer the claim requires; the code nevertheless returns no customer,
because the failed Bearer validation short-circuits the rest of the
header stage. -/
theorem C6_counterexample :
    get_customer_from_request sC6 reqC6 0 = none ∧
    reqC6.x_auth_token = some "tokA" ∧
    validate_token sC6 "tokA" 0 = some custW := by
  refine ⟨by decide, rfl, by decide⟩

/-- C6 (amended): extraction tries headers before parameters, but within
each stage only the first present credential is validated.  A truthy
Bearer credential decides the header stage outright: its customer on
success, otherwise the stage yields nothing and the parameter stage runs
(the remaining headers are skipped).  Without a Bearer credential a
truthy `X-Auth-Token` decides the stage the same way, then `X-Auth-Key`.
In the parameter stage a truthy `token` parameter decides: on failure the
result is none and the `auth_key` parameter is never consulted. -/
theorem C6_extraction_precedence (s : AuthState) (req : HttpRequest) (now : Nat) :
    (∀ h c, req.authorization = some h → (h ≠ "" ∧ pyStartsWith h "Bearer " = true) →
      validate_token s (strDrop h 7) now = some c →
      get_customer_from_request s req now = some c) ∧
    (∀ h, req.authorization = some h → (h ≠ "" ∧ pyStartsWith h "Bearer " = true) →
      validate_token s (strDrop h 7) now = none →
      get_customer_from_request s req now = get_customer_from_request_params s req now) ∧
    (∀ t c, noBearer req → req.x_auth_token = some t → t ≠ "" →
      validate_token s t now = some c →
      get_customer_from_request s req now = some c) ∧
    (∀ t, noBearer req → req.x_auth_token = some t → t ≠ "" →
      validate_token s t now = none →
      get_customer_from_request s req now = get_customer_from_request_params s req now) ∧
    (∀ k c, noBearer req → noHeaderToken req → req.x_auth_key = some k → k ≠ "" →
      validate_auth_key s k = some c →
      get_customer_from_request s req now = some c) ∧
    (∀ k, noBearer req → noHeaderToken req → req.x_auth_key = some k → k ≠ "" →
      validate_auth_key s k = none →
      get_customer_from_request s req now = get_customer_from_request_params s req now) ∧
    (noBearer req → noHeaderToken req → noHeaderKey req →
      get_customer_from_request s req now = get_customer_from_request_params s req now) ∧
    (∀ t c, pyOr req.args_token req.form_token = some t → t ≠ "" →
      validate_token s t now = some c →
      get_customer_from_request_params s req now = some c) ∧
    (∀ t, pyOr req.args_token req.form_token = some t → t ≠ "" →
      validate_token s t now = none →
      get_customer_from_request_params s req now = none) ∧
    ((∀ t, pyOr req.args_token req.form_token = some t → t = "") →
      get_customer_from_request_params s req now = params_key_step s req) ∧
    (∀ k c, pyOr req.args_auth_key req.form_auth_key = some k → k ≠ "" →
      validate_auth_key s k = some c →
      params_key_step s req = some c) ∧
    ((∀ k, pyOr req.args_auth_key req.form_auth_key = some k → k = "") →
      params_key_step s req = none) := by
  have hbearer : ∀ (hnb : noBearer req),
      get_customer_from_request_headers s req now = headers_token_step s req now := by
    intro hnb
    cases hA : req.authorization with
    | none => simp [get_customer_from_request_headers, hA]
    | some h => simp [get_customer_from_request_headers, hA, hnb h hA]
  have htokstep : ∀ (hnt : noHeaderToken req),
      headers_token_step s req now = headers_key_step s req := by
    intro hnt
    cases hx : req.x_auth_token with
    | none => simp [headers_token_step, hx]
    | some t => simp [headers_token_step, hx, hnt t hx]
  have hkeystep : ∀ (hnk : noHeaderKey req), headers_key_step s req = none := by
    intro hnk
    cases hx : req.x_auth_key with
    | none => simp [headers_key_step, hx]
    | some k => simp [headers_key_step, hx, hnk k hx]
  refine ⟨?_, ?_, ?_, ?_, ?_, ?_, ?_, ?_, ?_, ?_, ?_, ?_⟩
  · intro h c hA hB hv
    have hh : get_customer_from_request_headers s req now = some c := by
      simp [get_customer_from_request_headers, hA, hB, hv]
    simp [get_customer_from_request, hh]
  · intro h hA hB hv
    have hh : get_customer_from_request_headers s req now = none := by
      simp [get_customer_from_request_headers, hA, hB, hv]
    simp [get_customer_from_request, hh]
  · intro t c hnb hxt htne hv
    have hh : get_customer_from_request_headers s req now = some c := by
      rw [hbearer hnb]
      simp [headers_token_step, hxt, htne, hv]
    simp [get_customer_from_request, hh]
  · intro t hnb hxt htne hv
    have hh : get_customer_from_request_headers s req now = none := by
      rw [hbearer hnb]
      simp [headers_token_step, hxt, htne, hv]
    simp [get_customer_from_request, hh]
  · intro k c hnb hnt hxk hkne hv
    have hh : get_customer_from_request_headers s req now = some c := by
      rw [hbearer hnb, htokstep hnt]
      simp [headers_key_step, hxk, hkne, hv]
    simp [get_customer_from_request, hh]
  · intro k hnb hnt hxk hkne hv
    have hh : get_customer_from_request_headers s req now = none := by
      rw [hbearer hnb, htokstep hnt]
      simp [headers_key_step, hxk, hkne, hv]
    simp [get_customer_from_request, hh]
  · intro hnb hnt hnk
    have hh : get_customer_from_request_headers s req now = none := by
      rw [hbearer hnb, htokstep hnt, hkeystep hnk]
    simp [get_customer_from_request, hh]
  · intro t c hp htne hv
    simp [get_customer_from_request_params, hp, htne, hv]
  · intro t hp htne hv
    simp [get_customer_from_request_params, hp, htne, hv]
  · intro hempty
    cases hp : pyOr req.args_token req.form_token with
    | none => simp [get_customer_from_request_params, hp]
    | some t => simp [get_customer_from_request_params, hp, hempty t hp]
  · intro k c hp hkne hv
    simp [params_key_step, hp, hkne, hv]
  · intro hempty
    cases hp : pyOr req.args_auth_key req.form_auth_key with
    | none => simp [params_key_step, hp]
    | some k => simp [params_key_step, hp, hempty k hp]

/-- Witness for the amended C6: a valid Bearer credential yields its
customer. -/
theorem C6_witness :
    get_customer_from_request sC6
      ⟨some "Bearer tokA", none, none, none, none, none, none⟩ 0 = some custW := by
  have h := C6_extraction_precedence sC6
      ⟨some "Bearer tokA", none, none, none, none, none, none⟩ 0
  exact h.1 "Bearer tokA" custW rfl ⟨by decide, by decide⟩ (by decide)

/-! ### Appointment model — src/models/appointment_db.py -/

/-- Embeds `AppointmentStatus` (src/models/appointment_db.py lines 7-13). -/
inductive AppointmentStatus
  | pending
  | confirmed
  | in_progress
  | completed
  | cancelled
  | rescheduled
deriving DecidableEq

/-- A `datetime.time` value as the availability code uses it: the slot
generator emits whole hours (`dt_time(current_hour, 0)`) and the overlap
check reads only `.hour`. -/
structure TimeOfDay where
  hour : Nat
  minute : Nat
deriving DecidableEq

/-- A row of the `appointments` table (src/models/appointment_db.py lines
20-39), restricted to the fields the verified operations read or write
(`notes`, `address`, `appointment_type`, the estimate fields and
`created_at` are never touched by them). -/
structure ApptRow where
  id : Nat
  customer_id : Nat
  service_id : Nat
  appointment_date : Nat
  appointment_time : TimeOfDay
  status : AppointmentStatus
  technician_notes : Option String
  actual_cost : Option String
  updated_at : Nat
  completed_at : Option Nat
  cancelled_at : Option Nat
deriving DecidableEq

/-- Embeds `Appointment.cancel` (src/models/appointment_db.py lines 96-103): sets
the status to CANCELLED, stamps `cancelled_at` and `updated_at`, and — for
a non-empty reason — assigns `technician_notes = f"Cancelled: {reason}"`. -/
def cancel (a : ApptRow) (reason : String) (now : Nat) : ApptRow :=
  let a1 := { a with status := AppointmentStatus.cancelled, cancelled_at := some now,
                     updated_at := now }
  if reason ≠ "" then { a1 with technician_notes := some ("Cancelled: " ++ reason) } else a1

/-- Embeds `Appointment.get_by_date` (src/models/appointment_db.py lines
130-133): every appointment on the date, any status. -/
def get_by_date (appts : List ApptRow) (target_date : Nat) : List ApptRow :=
  appts.filter (fun a => decide (a.appointment_date = target_date))

/-- The conflict test of the slot loop (src/models/appointment_db.py lines
192-203): a non-cancelled appointment conflicts unless
`slot_end <= apt_start or current >= apt_end`, where the appointment is
assumed to occupy `duration_hours` from its start hour. -/
def slot_conflicts (existing : List ApptRow) (current_hour duration_hours : Nat) : Bool :=
  existing.any (fun apt =>
    if apt.status = AppointmentStatus.cancelled then false
    else !(decide (current_hour + duration_hours ≤ apt.appointment_time.hour) ||
           decide (apt.appointment_time.hour + duration_hours ≤ current_hour)))

/-- Embeds `Appointment.get_available_time_slots` (src/models/appointment_db.py
lines 171-210).  The source's `while current_hour <= 18 - duration_hours`
loop starting at 9 visits exactly the hours `range' 9 (10 - duration)`
(empty whenever `duration ≥ 10`, as in Python where `9 <= 18 - duration`
then fails), keeping the hours with no conflict, as `dt_time(hour, 0)`
values in increasing order. -/
def get_available_time_slots (appts : List ApptRow) (target_date duration_hours : Nat) :
    List TimeOfDay :=
  let existing := get_by_date appts target_date
  ((List.range' 9 (10 - duration_hours)).filter
    (fun h => !slot_conflicts existing h duration_hours)).map (fun h => ⟨h, 0⟩)

/-- Having `slot_conflicts = false` says every non-cancelled appointment of the
list is disjoint from the candidate interval. -/
theorem slot_conflicts_eq_false (existing : List ApptRow) (h dur : Nat) :
    slot_conflicts existing h dur = false ↔
      ∀ apt ∈ existing, apt.status ≠ AppointmentStatus.cancelled →
        (h + dur ≤ apt.appointment_time.hour ∨ apt.appointment_time.hour + dur ≤ h) := by
  unfold slot_conflicts
  rw [List.any_eq_false]
  constructor
  · intro hall apt hmem hnc
    have hx := hall apt hmem
    rw [if_neg hnc] at hx
    by_cases hA : h + dur ≤ apt.appointment_time.hour
    · exact Or.inl hA
    · by_cases hB : apt.appointment_time.hour + dur ≤ h
      · exact Or.inr hB
      · exact absurd (by simp [hA, hB]) hx
  · intro hall apt hmem
    by_cases hc : apt.status = AppointmentStatus.cancelled
    · simp [hc]
    · have hx := hall apt hmem hc
      rw [if_neg hc]
      rcases hx with hA | hB
      · simp [hA]
      · simp [hB]

/-- Concrete non-cancelled booking at 10:00 used in the C2 evaluation. -/
def apptAt10 : ApptRow :=
  { id := 1, customer_id := 1, service_id := 1, appointment_date := 0,
    appointment_time := ⟨10, 0⟩, status := AppointmentStatus.confirmed,
    technician_notes := none, actual_cost := none, updated_at := 0,
    completed_at := none, cancelled_at := none }

/-- C2: a time is an available slot iff it is an hourly-aligned start
(minute 0) inside the 09:00-18:00 window with `start + duration ≤ 18`
whose interval `[start, start+duration)` misses
`[apt_start, apt_start+duration)` of every non-cancelled appointment on
the date; the slots come out in strictly increasing order; and with one
non-cancelled 10:00 booking and duration 2 the result is exactly
12:00-16:00. -/
theorem C2_available_slots :
    (∀ (appts : List ApptRow) (d dur : Nat) (t : TimeOfDay),
      t ∈ get_available_time_slots appts d dur ↔
        (t.minute = 0 ∧ 9 ≤ t.hour ∧ t.hour + dur ≤ 18 ∧
          ∀ apt ∈ appts, apt.appointment_date = d →
            apt.status ≠ AppointmentStatus.cancelled →
            (t.hour + dur ≤ apt.appointment_time.hour ∨
             apt.appointment_time.hour + dur ≤ t.hour))) ∧
    (∀ (appts : List ApptRow) (d dur : Nat),
      (get_available_time_slots appts d dur).Pairwise (fun a b => a.hour < b.hour)) ∧
    get_available_time_slots [apptAt10] 0 2 =
      [⟨12, 0⟩, ⟨13, 0⟩, ⟨14, 0⟩, ⟨15, 0⟩, ⟨16, 0⟩] := by
  refine ⟨?_, ?_, by decide⟩
  · intro appts d dur t
    constructor
    · intro ht
      simp only [get_available_time_slots, List.mem_map] at ht
      obtain ⟨h, hmem, rfl⟩ := ht
      rw [List.mem_filter] at hmem
      obtain ⟨hr, hok⟩ := hmem
      rw [List.mem_range'_1] at hr
      have hconf : slot_conflicts (get_by_date appts d) h dur = false := by
        simpa using hok
      rw [slot_conflicts_eq_false] at hconf
      refine ⟨rfl, hr.1, ?_, ?_⟩
      · show h + dur ≤ 18
        omega
      intro apt hmem2 hd hnc
      refine hconf apt ?_ hnc
      rw [get_by_date, List.mem_filter]
      exact ⟨hmem2, by simp [hd]⟩
    · rintro ⟨hmin, hge, hle, hall⟩
      simp only [get_available_time_slots, List.mem_map]
      refine ⟨t.hour, ?_, ?_⟩
      · rw [List.mem_filter]
        constructor
        · rw [List.mem_range'_1]
          omega
        · have hconf : slot_conflicts (get_by_date appts d) t.hour dur = false := by
            rw [slot_conflicts_eq_false]
            intro apt hmem2 hnc
            rw [get_by_date, List.mem_filter] at hmem2
            exact hall apt hmem2.1 (by simpa using hmem2.2) hnc
          simp [hconf]
      · cases t with
        | mk hh mm =>
          simp only at hmin
          subst hmin
          rfl
  · intro appts d dur
    have hp : ((List.range' 9 (10 - dur)).filter
        (fun h => !slot_conflicts (get_by_date appts d) h dur)).Pairwise (· < ·) :=
      List.Pairwise.sublist (List.filter_sublist _) (List.pairwise_lt_range' 9 (10 - dur))
    simp only [get_available_time_slots]
    rw [List.pairwise_map]
    exact hp

/-- Concrete appointment with pre-existing technician notes, used by the
C7 counterexample. -/
def apptC7 : ApptRow :=
  { id := 1, customer_id := 1, service_id := 1, appointment_date := 0,
    appointment_time := ⟨10, 0⟩, status := AppointmentStatus.pending,
    technician_notes := some "prior note", actual_cost := none, updated_at := 0,
    completed_at := none, cancelled_at := none }

/-- C7 counterexample: cancelling an appointment whose technician notes
were `prior note` with reason `gone` leaves the notes equal to
`Cancelled: gone` — the prior content does not even occur as an infix of
the new notes, so the reason was not appended to the existing notes. -/
theorem C7_counterexample :
    (cancel apptC7 "gone" 5).technician_notes = some "Cancelled: gone" ∧
    ¬ ("prior note".data <:+: "Cancelled: gone".data) := by
  constructor
  · decide
  · decide

/-- C7 (amended): for every appointment and non-empty reason, `cancel`
sets the status to CANCELLED, stamps `cancelled_at` (and `updated_at`)
with the current instant, and REPLACES `technician_notes` with
`Cancelled: <reason>`, discarding any previous notes instead of appending
to them. -/
theorem C7_cancel_overwrites (a : ApptRow) (reason : String) (now : Nat)
    (hne : reason ≠ "") :
    cancel a reason now =
      { a with status := AppointmentStatus.cancelled, cancelled_at := some now,
               updated_at := now, technician_notes := some ("Cancelled: " ++ reason) } := by
  unfold cancel
  rw [if_pos hne]

/-- Witness for the amended C7 at the counterexample appointment. -/
theorem C7_witness :
    cancel apptC7 "gone" 5 =
      { apptC7 with status := AppointmentStatus.cancelled, cancelled_at := some 5,
                    updated_at := 5, technician_notes := some ("Cancelled: " ++ "gone") } :=
  C7_cancel_overwrites apptC7 "gone" 5 (by decide)

/-! ### Statistics — src/models/appointment_db.py lines 212-240 -/

/-- The dictionary returned by `Appointment.get_statistics`.  The Python
float `completion_rate` is modelled as an exact rational. -/
structure AppointmentStats where
  total : Nat
  pending : Nat
  confirmed : Nat
  completed : Nat
  cancelled : Nat
  completion_rate : ℚ
deriving DecidableEq

/-- Embeds `query.filter_by(status=st).count()`. -/
def statusCount (appts : List ApptRow) (st : AppointmentStatus) : Nat :=
  (appts.filter (fun a => decide (a.status = st))).length

/-- Round to the nearest integer, ties to even — the tie-breaking rule of
Python's built-in `round`. -/
def roundHalfEven (q : ℚ) : ℤ :=
  if q - ⌊q⌋ < 1/2 then ⌊q⌋
  else if 1/2 < q - ⌊q⌋ then ⌊q⌋ + 1
  else if ⌊q⌋ % 2 = 0 then ⌊q⌋ else ⌊q⌋ + 1

/-- Python's `round(x, 2)`. -/
def round2 (q : ℚ) : ℚ := (roundHalfEven (q * 100) : ℚ) / 100

/-- Embeds `Appointment.get_statistics` (src/models/appointment_db.py lines
212-240): all-zero dictionary (rate `0.0`) when no appointments exist,
otherwise per-status counts and `round((completed/total)*100, 2)` with
the source's redundant `if total > 0` guard kept. -/
def get_statistics (appts : List ApptRow) : AppointmentStats :=
  let total := appts.length
  if total = 0 then
    { total := 0, pending := 0, confirmed := 0, completed := 0, cancelled := 0,
      completion_rate := 0 }
  else
    let completed := statusCount appts AppointmentStatus.completed
    let completion_rate : ℚ :=
      if 0 < total then ((completed : ℚ) / (total : ℚ)) * 100 else 0
    { total := total, pending := statusCount appts AppointmentStatus.pending,
      confirmed := statusCount appts AppointmentStatus.confirmed,
      completed := completed,
      cancelled := statusCount appts AppointmentStatus.cancelled,
      completion_rate := round2 completion_rate }

/-- C10: `get_statistics` is total — on an empty table it returns the
all-zero dictionary with rate `0.0`, and on a non-empty table the counts
are the per-status counts and the completion rate is
`completed/total*100` rounded to two decimals, so the division is always
guarded by `total ≠ 0`. -/
theorem C10_statistics_total (appts : List ApptRow) :
    (appts.length = 0 →
      get_statistics appts =
        { total := 0, pending := 0, confirmed := 0, completed := 0, cancelled := 0,
          completion_rate := 0 }) ∧
    (appts.length ≠ 0 →
      get_statistics appts =
        { total := appts.length,
          pending := (appts.filter (fun a => decide (a.status = AppointmentStatus.pending))).length,
          confirmed := (appts.filter (fun a => decide (a.status = AppointmentStatus.confirmed))).length,
          completed := (appts.filter (fun a => decide (a.status = AppointmentStatus.completed))).length,
          cancelled := (appts.filter (fun a => decide (a.status = AppointmentStatus.cancelled))).length,
          completion_rate :=
            round2 ((((appts.filter
                (fun a => decide (a.status = AppointmentStatus.completed))).length : ℚ) /
              (appts.length : ℚ)) * 100) }) := by
  constructor
  · intro h0
    unfold get_statistics
    rw [if_pos h0]
  · intro hne
    unfold get_statistics
    rw [if_neg hne]
    dsimp only
    rw [if_pos (Nat.pos_of_ne_zero hne)]
    rfl

/-- A four-appointment table, one of each of the counted statuses. -/
def statsTable : List ApptRow :=
  [apptAt10, { apptAt10 with id := 2, status := AppointmentStatus.completed },
   { apptAt10 with id := 3, status := AppointmentStatus.pending },
   { apptAt10 with id := 4, status := AppointmentStatus.cancelled }]

/-- Witness for C10: the empty table yields the all-zero dictionary, and
one completed appointment out of four yields rate `25`. -/
theorem C10_witness :
    get_statistics [] =
      { total := 0, pending := 0, confirmed := 0, completed := 0, cancelled := 0,
        completion_rate := 0 } ∧
    (get_statistics statsTable).completion_rate = 25 := by
  refine ⟨(C10_statistics_total []).1 rfl, ?_⟩
  have h := (C10_statistics_total statsTable).2 (by decide)
  rw [h]
  have h1 : (statsTable.filter
      (fun a => decide (a.status = AppointmentStatus.completed))).length = 1 := by decide
  have h2 : statsTable.length = 4 := rfl
  dsimp only
  rw [h1, h2]
  norm_num [round2, roundHalfEven, Int.floor_ofNat]

end OmEng
